import Mathlib

/-!
Shallow embedding of the core of the rs-luau safety layer.

Sources embedded here:
  - src/src/lib.rs   : Luau::check_index, Luau::push_userdata,
                       Luau::get_userdata_ptr, impl Drop for Luau,
                       fatal_error_handler, fatal_runtime_error_handler
  - src/src/userdata.rs : the borrow cell state machine
                       (UserdataRef::try_from_ptr, UserdataRefMut::try_from_ptr,
                       their Drop impls, dtor_rs_luau_userdata_callback)
  - src/src/threads.rs : LuauThread::try_get_state
  - src/src/memory.rs  : luau_alloc_cb
  - src/src/ffi/luau.rs and build.rs : the pseudo-index constants and
                       LUAI_MAXCSTACK (build default 8000)

Machine integers: `c_int` is a 32-bit signed integer; it is modelled as `Int`
with an explicit twos-complement wrap (`wrap32`) exactly where the Rust code
uses `wrapping_add`.  `usize`/`isize` are 64-bit on the reference platform;
sizes are modelled as `Nat` with `isize_MAX = 2^63 - 1`.
-/

namespace RsLuau

/-- build.rs: `define_lua_cfg!(config, "LUAI_MAXCSTACK", "8000")` (default). -/
def LUAI_MAXCSTACK : Int := 8000

/-- ffi/luau.rs: `pub const LUA_REGISTRYINDEX: c_int = -LUAI_MAXCSTACK - 2000;` -/
def LUA_REGISTRYINDEX : Int := -LUAI_MAXCSTACK - 2000

/-- ffi/luau.rs: `pub const LUA_ENVIRONINDEX: c_int = -LUAI_MAXCSTACK - 2001;` -/
def LUA_ENVIRONINDEX : Int := -LUAI_MAXCSTACK - 2001

/-- ffi/luau.rs: `pub const LUA_GLOBALSINDEX: c_int = -LUAI_MAXCSTACK - 2002;` -/
def LUA_GLOBALSINDEX : Int := -LUAI_MAXCSTACK - 2002

/-- Twos-complement wrap to the `i32` range, the semantics of Rust
`i32::wrapping_add` applied to a mathematical sum. -/
def wrap32 (x : Int) : Int := (x + 2 ^ 31) % 2 ^ 32 - 2 ^ 31

/-- lib.rs, `Luau::check_index`.  The stack top (`self.top()`, an FFI read)
is passed explicitly as `top`.

Rust source:
```text
if idx <= LUA_REGISTRYINDEX { return true; }
let top = self.top();
let idx = if idx < 0 \x7b top.wrapping_add(idx) \x7d else \x7b idx \x7d;
if idx < LUA_GLOBALSINDEX { return true; }
idx >= 0 && idx <= top && idx < LUAI_MAXCSTACK
```
-/
def check_index (top idx : Int) : Bool :=
  if idx ≤ LUA_REGISTRYINDEX then
    true
  else
    let j := if idx < 0 then wrap32 (top + idx) else idx
    if j < LUA_GLOBALSINDEX then
      true
    else
      decide (0 ≤ j) && decide (j ≤ top) && decide (j < LUAI_MAXCSTACK)

/-- The validator as §4.1 of the spec words it (normalisation of a
negative index to `top + idx + 1`), written only to be compared against
`check_index`, which is the embedding of the code. -/
def check_index_spec_alg (top idx : Int) : Bool :=
  if idx ≤ LUA_REGISTRYINDEX then
    true
  else
    let n := if idx < 0 then top + idx + 1 else idx
    if n < LUA_GLOBALSINDEX then
      true
    else
      decide (0 ≤ n) && decide (n ≤ top) && decide (n < LUAI_MAXCSTACK)

/-- A panic-aware rendering of `check_index`: every step that could abort in
Rust is sequenced through `Option`, with `none` standing for a panic.  The
only arithmetic step is `wrapping_add`, which is total by definition, so no
step produces `none`. -/
def check_index_checked (top idx : Int) : Option Bool :=
  if idx ≤ LUA_REGISTRYINDEX then
    some true
  else
    (some (if idx < 0 then wrap32 (top + idx) else idx)).bind fun j =>
      if j < LUA_GLOBALSINDEX then
        some true
      else
        some (decide (0 ≤ j) && decide (j ≤ top) && decide (j < LUAI_MAXCSTACK))

lemma wrap32_eq_self {x : Int} (h0 : -(2 ^ 31) ≤ x) (h1 : x < 2 ^ 31) :
    wrap32 x = x := by
  unfold wrap32
  omega

/-- C1 (counterexample): the claim says `check_index` returns `false` at
index 0, but the code accepts index 0 (here at `top = 0`): the normalised
range test is `0 <= idx && idx <= top`, which index 0 passes. -/
theorem check_index_zero_accepted : check_index 0 0 = true := by decide

/-- C1 (amended): for every stack top in `[0, LUAI_MAXCSTACK)`, every index
in `[1, top]` is accepted and every index above `top` is rejected; index 0,
however, is also accepted by the code. -/
theorem check_index_valid_range (top idx : Int)
    (htop0 : 0 ≤ top) (htop1 : top < LUAI_MAXCSTACK) :
    (1 ≤ idx → idx ≤ top → check_index top idx = true) ∧
    (top < idx → check_index top idx = false) ∧
    check_index top 0 = true := by
  unfold LUAI_MAXCSTACK at htop1
  refine ⟨fun h1 h2 => ?_, fun h => ?_, ?_⟩ <;>
  · simp only [check_index, LUA_REGISTRYINDEX, LUA_GLOBALSINDEX, LUAI_MAXCSTACK]
    rw [if_neg (by omega), if_neg (by omega), if_neg (by omega)]
    simp only [Bool.and_eq_true, decide_eq_true_eq, Bool.and_eq_false_iff,
      decide_eq_false_iff_not]
    omega

/-- C1 amended, witnessed at `top = 3`, `idx = 2`. -/
theorem check_index_valid_range_witness :
    check_index 3 2 = true ∧ check_index 3 4 = false ∧ check_index 3 0 = true := by
  have h := check_index_valid_range 3 2 (by decide) (by decide)
  have h4 := check_index_valid_range 3 4 (by decide) (by decide)
  exact ⟨h.1 (by decide) (by decide), h4.2.1 (by decide), h.2.2⟩

/-- C2 (counterexample): the code does not normalise a negative index to
`top + idx + 1` as the spec algorithm states: at `top = 1`, `idx = -2` the
spec algorithm accepts while the code rejects; and the verdict for a
negative index does not always match the positive index `top + idx + 1`:
at `top = 8000`, `idx = -1` the code accepts `-1` yet rejects `8000`. -/
theorem check_index_normalization_counterexample :
    (check_index_spec_alg 1 (-2) = true ∧ check_index 1 (-2) = false) ∧
    (check_index 8000 (-1) = true ∧ check_index 8000 8000 = false) := by decide

/-- C2 (amended): for a negative, non-pseudo index the code normalises to
`top + idx` (the wrapping add collapses to the exact sum), and whenever
`|idx| <= top` and `top < LUAI_MAXCSTACK`, its verdict equals the verdict
of the equivalent positive index `top + idx + 1`. -/
theorem check_index_neg_normalization (top idx : Int)
    (htop0 : 0 ≤ top) (htop1 : top < LUAI_MAXCSTACK)
    (hneg : idx < 0) (hps : LUA_REGISTRYINDEX < idx) :
    wrap32 (top + idx) = top + idx ∧
    (-idx ≤ top → check_index top idx = check_index top (top + idx + 1)) := by
  unfold LUAI_MAXCSTACK at htop1
  unfold LUA_REGISTRYINDEX LUAI_MAXCSTACK at hps
  have hw : wrap32 (top + idx) = top + idx := wrap32_eq_self (by omega) (by omega)
  refine ⟨hw, fun habs => ?_⟩
  have hL : check_index top idx = true := by
    simp only [check_index, LUA_REGISTRYINDEX, LUA_GLOBALSINDEX, LUAI_MAXCSTACK]
    rw [if_neg (by omega), if_pos hneg, hw, if_neg (by omega)]
    simp only [Bool.and_eq_true, decide_eq_true_eq]
    omega
  have hR : check_index top (top + idx + 1) = true := by
    simp only [check_index, LUA_REGISTRYINDEX, LUA_GLOBALSINDEX, LUAI_MAXCSTACK]
    rw [if_neg (by omega), if_neg (by omega), if_neg (by omega)]
    simp only [Bool.and_eq_true, decide_eq_true_eq]
    omega
  rw [hL, hR]

/-- C2 amended, witnessed at `top = 5`, `idx = -2`. -/
theorem check_index_neg_normalization_witness :
    wrap32 (5 + -2) = 5 + -2 ∧ check_index 5 (-2) = check_index 5 (5 + -2 + 1) := by
  have h := check_index_neg_normalization 5 (-2) (by decide) (by decide)
    (by decide) (by decide)
  exact ⟨h.1, h.2 (by decide)⟩

/-- C7: the index validity check is total and pure: the panic-aware rendering
of the function produces `some` verdict on every input, i.e. no execution
path aborts, and failure is communicated only through the boolean result. -/
theorem check_index_never_aborts (top idx : Int) :
    check_index_checked top idx = some (check_index top idx) := by
  unfold check_index_checked check_index
  split
  · rfl
  · simp only [Option.some_bind]
    split <;> rw [apply_ite some]

/-- C7, witnessed at `top = 0`, `idx = -3`. -/
theorem check_index_never_aborts_witness :
    check_index_checked 0 (-3) = some (check_index 0 (-3)) :=
  check_index_never_aborts 0 (-3)

/-! ### Borrow tracker (src/src/userdata.rs)

The borrow cell of an embedded value is `count_cell: Cell<isize>`: `0` means
free, `n >= 1` means `n` outstanding shared guards, `-1` means one
outstanding exclusive guard.  Each acquisition function takes the current
cell value and returns the error of the source, or the new cell value the
source writes back. -/

/-- userdata.rs, `pub enum UserdataBorrowError`. -/
inductive UserdataBorrowError
  | AlreadyMutable
  | AlreadyImmutable
deriving DecidableEq

/-- userdata.rs, `UserdataRef::try_from_ptr` acting on the cell value:
`-1` is rejected with `AlreadyMutable`, anything else increments the cell. -/
def UserdataRef.try_from_ptr (c : Int) : Except UserdataBorrowError Int :=
  if c = -1 then .error .AlreadyMutable else .ok (c + 1)

/-- userdata.rs, `impl Drop for UserdataRef`: decrements the cell. -/
def UserdataRef.drop_guard (c : Int) : Int := c - 1

/-- userdata.rs, `UserdataRefMut::try_from_ptr` acting on the cell value:
`0` becomes `-1`, `-1` is rejected with `AlreadyMutable`, any other value
is rejected with `AlreadyImmutable`. -/
def UserdataRefMut.try_from_ptr (c : Int) : Except UserdataBorrowError Int :=
  if c = 0 then .ok (-1)
  else if c = -1 then .error .AlreadyMutable
  else .error .AlreadyImmutable

/-- userdata.rs, `impl Drop for UserdataRefMut`: resets the cell to `0`. -/
def UserdataRefMut.drop_guard (_ : Int) : Int := 0

/-- `n` successive shared acquisitions starting from cell value `c`;
`none` if any of them fails. -/
def acquire_shared_n : Nat → Int → Option Int
  | 0, c => some c
  | n + 1, c =>
    match UserdataRef.try_from_ptr c with
    | .ok c2 => acquire_shared_n n c2
    | .error _ => none

/-- `k` successive shared-guard releases starting from cell value `c`. -/
def release_shared_n : Nat → Int → Int
  | 0, c => c
  | k + 1, c => release_shared_n k (UserdataRef.drop_guard c)

lemma acquire_shared_n_of_nonneg (n : Nat) :
    ∀ c : Int, 0 ≤ c → acquire_shared_n n c = some (c + n) := by
  induction n with
  | zero => intro c _; simp [acquire_shared_n]
  | succ m ih =>
    intro c hc
    have : UserdataRef.try_from_ptr c = .ok (c + 1) := by
      unfold UserdataRef.try_from_ptr
      rw [if_neg (by omega)]
    simp only [acquire_shared_n, this]
    rw [ih (c + 1) (by omega)]
    congr 1
    push_cast
    ring

lemma release_shared_n_eq (k : Nat) : ∀ c : Int, release_shared_n k c = c - k := by
  induction k with
  | zero => intro c; simp [release_shared_n]
  | succ m ih =>
    intro c
    simp only [release_shared_n, UserdataRef.drop_guard, ih]
    push_cast
    ring

/-- C3: the borrow discipline of the embedded-value cell.  After an exclusive
acquisition succeeds (cell `0 -> -1`), every further shared or exclusive
acquisition fails with `AlreadyMutable` until the guard is dropped, after
which either kind succeeds again; `N` successive shared acquisitions from the
free state all succeed (cell ends at `N`); while `k < N` of them have been
released an exclusive acquisition still fails with `AlreadyImmutable`; once
all `N` are released the cell is `0` and an exclusive acquisition succeeds. -/
theorem borrow_discipline (N : Nat) :
    UserdataRefMut.try_from_ptr 0 = .ok (-1) ∧
    UserdataRef.try_from_ptr (-1) = .error .AlreadyMutable ∧
    UserdataRefMut.try_from_ptr (-1) = .error .AlreadyMutable ∧
    UserdataRefMut.drop_guard (-1) = 0 ∧
    UserdataRef.try_from_ptr (UserdataRefMut.drop_guard (-1)) = .ok 1 ∧
    UserdataRefMut.try_from_ptr (UserdataRefMut.drop_guard (-1)) = .ok (-1) ∧
    acquire_shared_n N 0 = some (N : Int) ∧
    (∀ k : Nat, k < N →
      UserdataRefMut.try_from_ptr (release_shared_n k (N : Int)) =
        .error .AlreadyImmutable) ∧
    release_shared_n N (N : Int) = 0 := by
  refine ⟨rfl, rfl, rfl, rfl, rfl, rfl, ?_, ?_, ?_⟩
  · simpa using acquire_shared_n_of_nonneg N 0 le_rfl
  · intro k hk
    rw [release_shared_n_eq]
    unfold UserdataRefMut.try_from_ptr
    rw [if_neg (by omega), if_neg (by omega)]
  · rw [release_shared_n_eq]
    omega

/-- C3, witnessed at `N = 2` shared guards, `k = 1` released. -/
theorem borrow_discipline_witness :
    acquire_shared_n 2 0 = some 2 ∧
    UserdataRefMut.try_from_ptr (release_shared_n 1 (2 : Int)) =
      .error .AlreadyImmutable ∧
    release_shared_n 2 (2 : Int) = 0 :=
  ⟨(borrow_discipline 2).2.2.2.2.2.2.1,
   (borrow_discipline 2).2.2.2.2.2.2.2.1 1 (by decide),
   (borrow_discipline 2).2.2.2.2.2.2.2.2⟩

/-! ### Tagged value store (src/src/lib.rs push_userdata / get_userdata_ptr,
src/src/userdata.rs Userdata / dtor_rs_luau_userdata_callback)

`TypeId` is modelled as `Nat` (Rust guarantees distinct types have distinct
ids); the inline payload is modelled as its bits, a `Nat`.  The teardown
logic `drop_userdata::<T>` runs the drop glue of `T` once over the payload;
its observable side effect is modelled as incrementing an effect counter. -/

/-- userdata.rs, `struct Userdata<T>`: type id, borrow cell, optional
destructor function reference, inline payload. -/
structure Userdata where
  id : Nat
  count_cell : Int
  dtor : Option (Nat → Nat)
  inner : Nat

/-- userdata.rs, `drop_userdata::<T>`: runs the drop glue of the payload in
place; the observable teardown effect bumps the counter once. -/
def drop_userdata : Nat → Nat := fun eff => eff + 1

/-- lib.rs, the block written by `Luau::push_userdata::<T>`: id is the
`TypeId` of `T`, cell starts free, the destructor reference is stored iff
`needs_drop::<T>()`, and the payload is moved in. -/
def pushed_block (needs_drop : Bool) (tid payload : Nat) : Userdata :=
  ⟨tid, 0, if needs_drop then some drop_userdata else none, payload⟩

/-- lib.rs, `Luau::push_userdata`: allocates a new tagged block on top of the
stack (head of the list) holding the written `Userdata`.  A slot that is not
a tagged userdata is `none` (`lua_touserdatatagged` returns null there). -/
def push_userdata (needs_drop : Bool) (tid payload : Nat)
    (stack : List (Option Userdata)) : List (Option Userdata) :=
  some (pushed_block needs_drop tid payload) :: stack

/-- The slot at the top of the stack. -/
def top_slot (stack : List (Option Userdata)) : Option Userdata :=
  stack.headD none

/-- lib.rs, `Luau::get_userdata_ptr::<T>` on one slot: null pointer or a
stored id different from the `TypeId` of `T` yields `None`, otherwise the
block itself. -/
def get_userdata_ptr (tid : Nat) (slot : Option Userdata) : Option Userdata :=
  match slot with
  | some b => if b.id = tid then some b else none
  | none => none

/-- userdata.rs, `dtor_rs_luau_userdata_callback`: the per-tag destructor
hook reads the stored destructor reference and invokes it iff present
(`self.dtor.inspect(|func| func(v))`). -/
def dtor_rs_luau_userdata_callback (b : Userdata) (eff : Nat) : Nat :=
  match b.dtor with
  | some f => f eff
  | none => eff

/-- The VM reclaiming a set of blocks (garbage collection or `lua_close`):
the per-tag hook runs once per block. -/
def reclaim_blocks (blocks : List Userdata) (eff : Nat) : Nat :=
  blocks.foldl (fun e b => dtor_rs_luau_userdata_callback b e) eff

/-- C4: embedding round-trip.  After `push_userdata` of a value with type id
`tid`, querying the same (top) slot with expected id `tid` recovers the block
and its payload is the embedded value; querying with any distinct id `utid`
returns `none`, never a wrong-typed payload. -/
theorem userdata_roundtrip (needs_drop : Bool) (tid payload : Nat)
    (stack : List (Option Userdata)) :
    (∃ b, get_userdata_ptr tid
        (top_slot (push_userdata needs_drop tid payload stack)) = some b ∧
      b.inner = payload ∧ b.id = tid) ∧
    (∀ utid : Nat, utid ≠ tid →
      get_userdata_ptr utid
        (top_slot (push_userdata needs_drop tid payload stack)) = none) := by
  constructor
  · refine ⟨pushed_block needs_drop tid payload, ?_, ?_, ?_⟩ <;>
      simp [get_userdata_ptr, top_slot, push_userdata, pushed_block]
  · intro utid hne
    simp only [get_userdata_ptr, top_slot, push_userdata, List.headD_cons]
    rw [if_neg fun h => hne h.symm]

/-- C4, witnessed at `tid = 0`, `payload = 7`, distinct query id `utid = 1`. -/
theorem userdata_roundtrip_witness :
    (∃ b, get_userdata_ptr 0 (top_slot (push_userdata true 0 7 [])) = some b ∧
      b.inner = 7 ∧ b.id = 0) ∧
    get_userdata_ptr 1 (top_slot (push_userdata true 0 7 [])) = none :=
  ⟨(userdata_roundtrip true 0 7 []).1,
   (userdata_roundtrip true 0 7 []).2 1 (by decide)⟩

/-- C6: destructor dispatch.  When the embedded type needs drop glue a
destructor reference is stored in the block and the per-tag hook invokes it
exactly once at reclaim (the observable teardown effect fires exactly once
when the owning context is discarded); when the type needs no drop glue no
reference is stored and the hook invokes nothing. -/
theorem dtor_dispatch (tid payload eff : Nat) :
    (pushed_block true tid payload).dtor.isSome = true ∧
    (pushed_block false tid payload).dtor = none ∧
    dtor_rs_luau_userdata_callback (pushed_block true tid payload) eff = eff + 1 ∧
    dtor_rs_luau_userdata_callback (pushed_block false tid payload) eff = eff ∧
    reclaim_blocks [pushed_block true tid payload] 0 = 1 ∧
    reclaim_blocks [pushed_block false tid payload] 0 = 0 := by
  refine ⟨rfl, rfl, ?_, rfl, ?_, rfl⟩ <;>
    simp [dtor_rs_luau_userdata_callback, pushed_block, drop_userdata,
      reclaim_blocks]

/-! ### Root-context lifetime (src/src/lib.rs impl Drop for Luau,
src/src/threads.rs LuauThread::try_get_state)

The observable world of one VM instance: the shared liveness flag
(`main_thread_rc: Rc<Cell<bool>>`), whether `lua_close` has reclaimed the
state, and whether the associated data (allocator and app-data slot) has
been freed.  `impl Drop for Luau` is modelled as the ordered list of steps
it performs, so that the order between flag write and reclamation is part
of the embedding. -/

/-- One observable step of `impl Drop for Luau`:
`main_thread_rc.set(false)`, then `lua_close(state)`, then dropping the
re-boxed `AssociatedData`. -/
inductive DropStep
  | setDead
  | closeState
  | freeAssoc
deriving DecidableEq

/-- The observable state of one VM instance. -/
structure VMWorld where
  alive : Bool
  stateFreed : Bool
  assocFreed : Bool
deriving DecidableEq

/-- World right after `Luau::new`: flag true, nothing reclaimed. -/
def initWorld : VMWorld := ⟨true, false, false⟩

def applyStep (w : VMWorld) : DropStep → VMWorld
  | .setDead => ⟨false, w.stateFreed, w.assocFreed⟩
  | .closeState => ⟨w.alive, true, w.assocFreed⟩
  | .freeAssoc => ⟨w.alive, w.stateFreed, true⟩

def runSteps (w : VMWorld) (steps : List DropStep) : VMWorld :=
  steps.foldl applyStep w

/-- lib.rs, `struct Luau`: only the ownership tag matters for drop. -/
structure Luau where
  owned : Bool

/-- lib.rs, `Luau::new` (and `from_ptr_owned`): an owning root context. -/
def Luau.new : Luau := ⟨true⟩

/-- lib.rs, `Luau::from_ptr`: a non-owning view (`owned == false`). -/
def Luau.from_ptr : Luau := ⟨false⟩

/-- lib.rs, `impl Drop for Luau`: returns immediately when not owned,
otherwise marks the main thread dead, closes the state, then frees the
associated data — in that order. -/
def Luau.drop_steps (l : Luau) : List DropStep :=
  if l.owned then [.setDead, .closeState, .freeAssoc] else []

/-- threads.rs, `pub struct MainStateDeadError`. -/
inductive MainStateDeadError
  | mk
deriving DecidableEq

/-- threads.rs, `LuauThread::try_get_state`: checks the shared liveness flag
first and fails with `MainStateDeadError` when it is false; the thread state
is dereferenced only on the `ok` path. -/
def LuauThread.try_get_state (w : VMWorld) : Except MainStateDeadError Unit :=
  if w.alive = false then .error .mk else .ok ()

/-- C5: root destruction sets the shared liveness flag false before the VM
state is reclaimed: after any prefix of the owned-drop steps in which the
state has been reclaimed, a secondary-context access through
`try_get_state` fails with the root-dead error (it never reaches the
dereference on the `ok` path). -/
theorem root_drop_liveness (n : Nat)
    (h : (runSteps initWorld (Luau.new.drop_steps.take n)).stateFreed = true) :
    LuauThread.try_get_state (runSteps initWorld (Luau.new.drop_steps.take n)) =
      .error .mk := by
  match n with
  | 0 => exact absurd h (by decide)
  | 1 => exact absurd h (by decide)
  | 2 => rfl
  | k + 3 =>
    have ht : Luau.new.drop_steps.take (k + 3) = Luau.new.drop_steps := by
      simp [Luau.drop_steps, Luau.new]
    rw [ht]
    rfl

/-- C5, witnessed after the full drop sequence (`n = 3`). -/
theorem root_drop_liveness_witness :
    LuauThread.try_get_state (runSteps initWorld (Luau.new.drop_steps.take 3)) =
      .error .mk :=
  root_drop_liveness 3 rfl

/-- C9: dropping a non-owning view (`Luau::from_ptr`, `owned == false`)
performs no destruction step: the liveness flag, the VM state and the
associated data are all left unchanged. -/
theorem nonowning_drop_noop (w : VMWorld) :
    Luau.from_ptr.owned = false ∧
    Luau.from_ptr.drop_steps = [] ∧
    runSteps w Luau.from_ptr.drop_steps = w :=
  ⟨rfl, rfl, rfl⟩

/-! ### Fatal error tiers (src/src/lib.rs fatal_error_handler,
fatal_runtime_error_handler) -/

/-- ffi/luau.rs, `enum LuauStatus` (the variants the panic callback can
receive). -/
inductive LuauStatus
  | LUA_OK
  | LUA_YIELD
  | LUA_ERRRUN
  | LUA_ERRSYNTAX
  | LUA_ERRMEM
  | LUA_ERRERR
deriving DecidableEq

/-- The host-level outcome of the installed panic callback. -/
inductive FatalOutcome
  | abortProcess
  | hostPanic (msg : String)
  | unreachableCase
deriving DecidableEq

/-- lib.rs, `fatal_runtime_error_handler`: surfaces a host-level fatal
failure carrying the rendered error text read from the top of the stack
(`errText` stands for that rendered text). -/
def fatal_runtime_error_handler (errText : String) : FatalOutcome :=
  .hostPanic ("Uncaught runtime error - \"" ++ errText ++ "\"")

/-- lib.rs, `fatal_error_handler`, the installed panic callback. -/
def fatal_error_handler (status : LuauStatus) (errText : String) : FatalOutcome :=
  match status with
  | .LUA_ERRRUN => fatal_runtime_error_handler errText
  | .LUA_ERRMEM => .abortProcess
  | .LUA_ERRERR => .hostPanic ("Error originating from error handling mechanism")
  | _ => .unreachableCase

/-- C8: the fatal-condition tiers of the installed panic callback: a memory
allocation failure aborts the process immediately; an unhandled runtime
error becomes a host-level fatal failure carrying the rendered error text;
an error inside the error-handling mechanism is likewise fatal. -/
theorem fatal_tiers (t : String) :
    fatal_error_handler .LUA_ERRMEM t = .abortProcess ∧
    fatal_error_handler .LUA_ERRRUN t =
      .hostPanic ("Uncaught runtime error - \"" ++ t ++ "\"") ∧
    fatal_error_handler .LUA_ERRERR t =
      .hostPanic ("Error originating from error handling mechanism") :=
  ⟨rfl, rfl, rfl⟩

/-! ### Allocation callback (src/src/memory.rs luau_alloc_cb)

`usize` is 64-bit on the reference platform; `isize::MAX as usize` is
`2^63 - 1`.  The callback result records which host-allocator method is
invoked and what pointer is returned. -/

def isize_MAX : Nat := 2 ^ 63 - 1

/-- What one `luau_alloc_cb` call does: free the old block and return null,
return null without touching the host allocator, or dispatch to
`allocate` / `reallocate`. -/
inductive AllocAction
  | deallocThenNull (old_size : Nat)
  | nullNoCall
  | callAllocate (new_size : Nat)
  | callReallocate (old_size new_size : Nat)
deriving DecidableEq

/-- memory.rs, `luau_alloc_cb`: the dispatch logic on
(`ptr.is_null()`, `old_size`, `new_size`). -/
def luau_alloc_cb (ptr_is_null : Bool) (old_size new_size : Nat) : AllocAction :=
  if new_size = 0 then
    if ptr_is_null then .nullNoCall else .deallocThenNull old_size
  else if new_size > isize_MAX then .nullNoCall
  else if ptr_is_null then .callAllocate new_size
  else .callReallocate old_size new_size

/-- Whether the action returns a null pointer to the VM. -/
def AllocAction.returns_null : AllocAction → Bool
  | .deallocThenNull _ => true
  | .nullNoCall => true
  | _ => false

/-- Whether the action invokes any host-allocator method. -/
def AllocAction.invokes_allocator : AllocAction → Bool
  | .nullNoCall => false
  | _ => true

/-- C10: postconditions of the allocation callback: a zero new size frees the
old block when the pointer is non-null and returns null either way; a new
size above `isize::MAX` returns null without invoking the host allocator;
otherwise the request dispatches to `allocate` for a null old pointer and to
`reallocate` for a non-null one. -/
theorem alloc_cb_postconditions (pn : Bool) (olds news : Nat) :
    (news = 0 →
      (luau_alloc_cb pn olds news).returns_null = true ∧
      (pn = false → luau_alloc_cb pn olds news = .deallocThenNull olds) ∧
      (pn = true → luau_alloc_cb pn olds news = .nullNoCall)) ∧
    (news > isize_MAX →
      luau_alloc_cb pn olds news = .nullNoCall ∧
      (luau_alloc_cb pn olds news).invokes_allocator = false) ∧
    (0 < news → news ≤ isize_MAX →
      luau_alloc_cb pn olds news =
        if pn then .callAllocate news else .callReallocate olds news) := by
  refine ⟨fun h0 => ?_, fun hbig => ?_, fun h1 h2 => ?_⟩
  · subst h0
    cases pn <;> simp [luau_alloc_cb, AllocAction.returns_null]
  · have hz : news ≠ 0 := by
      intro h
      rw [h] at hbig
      exact absurd hbig (by decide)
    unfold luau_alloc_cb
    rw [if_neg hz, if_pos hbig]
    exact ⟨rfl, rfl⟩
  · unfold luau_alloc_cb
    rw [if_neg (by omega), if_neg (not_lt.mpr h2)]

/-- C10, witnessed at a zero-size free (`olds = 4`) and an in-range
reallocation (`news = 5`), both with a non-null old pointer. -/
theorem alloc_cb_postconditions_witness :
    (luau_alloc_cb false 4 0).returns_null = true ∧
    luau_alloc_cb false 4 0 = .deallocThenNull 4 ∧
    luau_alloc_cb false 4 5 = .callReallocate 4 5 := by
  have h := alloc_cb_postconditions false 4 0
  have h5 := alloc_cb_postconditions false 4 5
  exact ⟨(h.1 rfl).1, (h.1 rfl).2.1 rfl,
    by simpa using h5.2.2 (by decide) (by decide)⟩

end RsLuau
